import Mathlib

/-!
Verification of the reflective persistence core of the go-active-record
repository against its specification.

The development shallowly embeds the relevant Go code:

* activerecord/transactions.go : the Transaction and savepoint manager.
  Go mutates a heap-allocated Transaction under a mutex; here every
  operation is a pure function from the receiver object to a triple
  (returned error, updated receiver, list of SQL statements handed to the
  driver).  The database driver is an oracle parameter
  (DbExec : statement -> Option error); a result of none means the
  driver executed the statement successfully.

* activerecord/model.go : the metadata introspector (setTimestampsDeep,
  getFieldsAndValuesDeep, getFieldsAndValues), the row codec (scanRow),
  the CRUD entry points (Create, Update, Delete, FindAll, Where).
  Go reflection over record structs is embedded as a small universe of
  field trees (ints, strings, time values, nested structs); time.Time is
  modelled as a Nat whose zero is the zero time.
-/

/-! ### Transaction and savepoint manager (transactions.go) -/

/-- Result of one callback registered with AddCallback: its index in
registration order and the error it returns when run (none = success). -/
abbrev Callback := Nat × Option String

/-- Embedding of the Transaction struct (transactions.go lines 11-21).
The Go field parentTx (a pointer to the enclosing transaction) is used by
Commit and Rollback only through the test parentTx != nil, so it is
modelled by the Boolean nested. -/
structure Transaction where
  savepoints : List String
  savepointID : Nat
  committed : Bool
  rolledBack : Bool
  nested : Bool
  callbacks : List Callback
deriving DecidableEq, Repr

/-- Driver oracle: the result of tx.Exec on one SQL statement
(none = the driver executed it without error). -/
abbrev DbExec := String → Option String

/-- Savepoint names are generated as sp_<id> (transactions.go line 63). -/
def spName (n : Nat) : String := "sp_" ++ toString n

/-- Result of BeginNested: the possibly mutated parent, the child
transaction when one is produced, the error, and the statements issued. -/
structure NestedResult where
  parent : Transaction
  child : Option Transaction
  err : Option String
  trace : List String
deriving DecidableEq, Repr

/-- Embedding of Transaction.BeginNested (transactions.go lines 54-79).
The savepoint id is incremented, the name sp_<id> is generated, the
SAVEPOINT statement is executed, the name is appended to the receiver
(parent) savepoint list, and the child is built with an empty savepoint
list, savepointID 0 and parentTx set. -/
def Transaction.beginNested (dbE : DbExec) (t : Transaction) : NestedResult :=
  if t.committed || t.rolledBack then
    { parent := t, child := none,
      err := some "cannot begin nested transaction on committed/rolled back transaction",
      trace := [] }
  else
    let t1 := { t with savepointID := t.savepointID + 1 }
    let name := spName t1.savepointID
    let stmt := "SAVEPOINT " ++ name
    match dbE stmt with
    | some e =>
        { parent := t1, child := none,
          err := some ("failed to create savepoint " ++ name ++ ": " ++ e),
          trace := [stmt] }
    | none =>
        { parent := { t1 with savepoints := t1.savepoints ++ [name] },
          child := some { savepoints := [], savepointID := 0, committed := false,
                          rolledBack := false, nested := true, callbacks := [] },
          err := none, trace := [stmt] }

/-- Embedding of the callback loop of Commit (transactions.go lines
107-112).  Each executed callback contributes the event CALLBACK <i> so
that execution order is observable; the first callback returning an
error stops the loop and yields the wrapped error. -/
def runCallbacks : List Callback → Option String × List String
  | [] => (none, [])
  | (i, r) :: rest =>
      let ev := "CALLBACK " ++ toString i
      match r with
      | some e => (some ("commit callback failed: " ++ e), [ev])
      | none =>
          let res := runCallbacks rest
          (res.1, ev :: res.2)

/-- Embedding of Transaction.Commit (transactions.go lines 82-120).
Guards for the terminal states come first; a nested transaction releases
the last savepoint of its own list (if any) and marks committed; a
top-level transaction runs the callbacks and then physically commits. -/
def Transaction.commit (dbE : DbExec) (t : Transaction) :
    Option String × Transaction × List String :=
  if t.committed then (some "transaction already committed", t, [])
  else if t.rolledBack then (some "cannot commit rolled back transaction", t, [])
  else if t.nested then
    match t.savepoints.getLast? with
    | some name =>
        match dbE ("RELEASE SAVEPOINT " ++ name) with
        | some e => (some ("failed to release savepoint " ++ name ++ ": " ++ e), t,
                     ["RELEASE SAVEPOINT " ++ name])
        | none => (none, { t with committed := true }, ["RELEASE SAVEPOINT " ++ name])
    | none => (none, { t with committed := true }, [])
  else
    match runCallbacks t.callbacks with
    | (some e, tr) => (some e, t, tr)
    | (none, tr) =>
        match dbE "COMMIT" with
        | some e => (some ("failed to commit transaction: " ++ e), t, tr ++ ["COMMIT"])
        | none => (none, { t with committed := true }, tr ++ ["COMMIT"])

/-- Embedding of Transaction.Rollback (transactions.go lines 123-154).
Guards for the terminal states come first; a nested transaction rolls
back to the last savepoint of its own list (if any) and marks rolled
back; a top-level transaction physically rolls back. -/
def Transaction.rollback (dbE : DbExec) (t : Transaction) :
    Option String × Transaction × List String :=
  if t.committed then (some "cannot rollback committed transaction", t, [])
  else if t.rolledBack then (some "transaction already rolled back", t, [])
  else if t.nested then
    match t.savepoints.getLast? with
    | some name =>
        match dbE ("ROLLBACK TO SAVEPOINT " ++ name) with
        | some e => (some ("failed to rollback to savepoint " ++ name ++ ": " ++ e), t,
                     ["ROLLBACK TO SAVEPOINT " ++ name])
        | none => (none, { t with rolledBack := true }, ["ROLLBACK TO SAVEPOINT " ++ name])
    | none => (none, { t with rolledBack := true }, [])
  else
    match dbE "ROLLBACK" with
    | some e => (some ("failed to rollback transaction: " ++ e), t, ["ROLLBACK"])
    | none => (none, { t with rolledBack := true }, ["ROLLBACK"])

/-- Embedding of Transaction.AddCallback (transactions.go lines 238-243). -/
def Transaction.addCallback (t : Transaction) (c : Callback) : Transaction :=
  { t with callbacks := t.callbacks ++ [c] }

/-- A driver that executes every statement successfully. -/
def okExec : DbExec := fun _ => none

/-- A freshly begun top-level transaction (transactions.go lines 45-50). -/
def freshTx : Transaction :=
  { savepoints := [], savepointID := 0, committed := false,
    rolledBack := false, nested := false, callbacks := [] }

/-- The child transaction produced by BeginNested on a fresh parent
(transactions.go lines 72-78): empty savepoint list, parentTx set. -/
def nestedChild : Transaction :=
  { savepoints := [], savepointID := 0, committed := false,
    rolledBack := false, nested := true, callbacks := [] }

/-- Event list of a callback run: CALLBACK <i> in registration order. -/
def callbackEvents (cbs : List Callback) : List String :=
  cbs.map (fun c => "CALLBACK " ++ toString c.1)

/-- A top-level transaction carrying two successful callbacks, built with
AddCallback (used as a concrete witness input). -/
def twoCallbackTx : Transaction :=
  (freshTx.addCallback (0, none)).addCallback (1, none)

/-! ### Metadata introspector (model.go)

Go reflection over record structs is embedded as a universe of field
trees.  A field carries its Go name, its db tag (the empty string when
the struct has none), its Anonymous flag (set for embedded sub-records)
and its value.  time.Time is a Nat whose zero is the zero time (IsZero).
All fields are settable (the records the engine handles are passed as
pointers to structs with exported fields). -/

mutual
inductive FieldVal where
  | vInt (i : Int)
  | vString (s : String)
  | vTime (t : Nat)
  | vStruct (fs : Fields)
deriving DecidableEq, Repr
inductive GoField where
  | mk (name : String) (dbTag : String) (anonymous : Bool) (val : FieldVal)
deriving DecidableEq, Repr
inductive Fields where
  | nil
  | cons (f : GoField) (fs : Fields)
deriving DecidableEq, Repr
end

/-- Test for field.Kind() == reflect.Struct. -/
def isStructVal : FieldVal → Bool
  | .vStruct _ => true
  | _ => false

/-- Test for field.Type() == reflect.TypeOf(time.Time). -/
def isTimeVal : FieldVal → Bool
  | .vTime _ => true
  | _ => false

/-- Test for field.Interface().(time.Time).IsZero(). -/
def timeValIsZero : FieldVal → Bool
  | .vTime t => t == 0
  | _ => false

/-- Charwise lowering, the effect of strings.ToLower on the ASCII field
names in scope (String.toLower itself does not reduce in the kernel). -/
def toLowerStr (s : String) : String := String.mk (s.data.map Char.toLower)

/-- Column-name resolution (model.go lines 100-103): the db tag when
present, otherwise the lowered field name. -/
def dbTagOf (name tag : String) : String :=
  if tag = "" then toLowerStr name else tag

/- Embedding of setTimestampsDeep (model.go lines 73-90).  The source
first recurses into struct-kinded fields and then overwrites any field
named CreatedAt or UpdatedAt with now; when the name matches, the
overwrite makes the recursion result irrelevant, which the embedding
folds into a single conditional. -/
mutual
def setTimestampsVal (now : Nat) : FieldVal → FieldVal
  | .vStruct fs => .vStruct (setTimestampsFields now fs)
  | v => v
def setTimestampsFields (now : Nat) : Fields → Fields
  | .nil => .nil
  | .cons (.mk name tag anon v) rest =>
      .cons (.mk name tag anon
        (if name = "CreatedAt" || name = "UpdatedAt" then FieldVal.vTime now
         else setTimestampsVal now v))
        (setTimestampsFields now rest)
end

/- Embedding of getFieldsAndValuesDeep (model.go lines 92-119):
anonymous struct fields are flattened in place; a db tag of "-" removes
the field; with excludeID the primary-key field is skipped; a zero
time value tagged created_at or updated_at is skipped. -/
mutual
def spliceEmbedded (ex : Bool) : FieldVal → List (String × FieldVal)
  | .vStruct fs => getFieldsAndValuesDeep ex fs
  | _ => []
def getFieldsAndValuesDeep (ex : Bool) : Fields → List (String × FieldVal)
  | .nil => []
  | .cons (.mk name tag anon v) rest =>
      (if anon && isStructVal v then spliceEmbedded ex v
       else if dbTagOf name tag = "-" then []
       else if ex && (dbTagOf name tag = "id" || name = "ID") then []
       else if (dbTagOf name tag = "created_at" || dbTagOf name tag = "updated_at") &&
               isTimeVal v && timeValIsZero v then []
       else [(dbTagOf name tag, v)])
      ++ getFieldsAndValuesDeep ex rest
end

/- Pure type identity of a value: what reflect.Type knows, with field
values erased.  Two record instances have the same Go type exactly when
their type shapes are equal. -/
mutual
inductive TShape where
  | tInt
  | tString
  | tTime
  | tStruct (fs : TFields)
deriving DecidableEq, Repr
inductive TField where
  | mk (name : String) (dbTag : String) (anonymous : Bool) (s : TShape)
deriving DecidableEq, Repr
inductive TFields where
  | nil
  | cons (f : TField) (fs : TFields)
deriving DecidableEq, Repr
end

mutual
def typeShapeVal : FieldVal → TShape
  | .vInt _ => .tInt
  | .vString _ => .tString
  | .vTime _ => .tTime
  | .vStruct fs => .tStruct (typeShapeFields fs)
def typeShapeFields : Fields → TFields
  | .nil => .nil
  | .cons (.mk name tag anon v) rest =>
      .cons (.mk name tag anon (typeShapeVal v)) (typeShapeFields rest)
end

/- Type identity refined with the zero/non-zero status of every time
value: the abstraction of an instance that the column-name computation
actually depends on. -/
mutual
inductive ZShape where
  | zInt
  | zString
  | zTime (isZero : Bool)
  | zStruct (fs : ZFields)
deriving DecidableEq, Repr
inductive ZField where
  | mk (name : String) (dbTag : String) (anonymous : Bool) (s : ZShape)
deriving DecidableEq, Repr
inductive ZFields where
  | nil
  | cons (f : ZField) (fs : ZFields)
deriving DecidableEq, Repr
end

mutual
def zShapeVal : FieldVal → ZShape
  | .vInt _ => .zInt
  | .vString _ => .zString
  | .vTime t => .zTime (t == 0)
  | .vStruct fs => .zStruct (zShapeFields fs)
def zShapeFields : Fields → ZFields
  | .nil => .nil
  | .cons (.mk name tag anon v) rest =>
      .cons (.mk name tag anon (zShapeVal v)) (zShapeFields rest)
end

def isZStruct : ZShape → Bool
  | .zStruct _ => true
  | _ => false

def isZTime : ZShape → Bool
  | .zTime _ => true
  | _ => false

def zTimeZero : ZShape → Bool
  | .zTime b => b
  | _ => false

/- The column-name computation of getFieldsAndValuesDeep transported
onto refined shapes (proof abstraction, mirrors the if chain). -/
mutual
def namesOfZVal (ex : Bool) : ZShape → List String
  | .zStruct fs => namesOfZFields ex fs
  | _ => []
def namesOfZFields (ex : Bool) : ZFields → List String
  | .nil => []
  | .cons (.mk name tag anon s) rest =>
      (if anon && isZStruct s then namesOfZVal ex s
       else if dbTagOf name tag = "-" then []
       else if ex && (dbTagOf name tag = "id" || name = "ID") then []
       else if (dbTagOf name tag = "created_at" || dbTagOf name tag = "updated_at") &&
               isZTime s && zTimeZero s then []
       else [dbTagOf name tag])
      ++ namesOfZFields ex rest
end

/-! ### CRUD engine entry points (model.go) -/

/-- A record value as handed to the CRUD entry points: whether its
dynamic type satisfies the Modeler interface, its table name, and its
field tree. -/
structure GoRecord where
  isModeler : Bool
  tableName : String
  fields : Fields
deriving DecidableEq, Repr

/-- Error returned by Create/Find/Update/Delete for a value that does
not satisfy Modeler (the source message also carries the dynamic Go
type). -/
def modelerErr : String := "model does not implement Modeler"

/-- Embedding of getFieldsAndValues (model.go lines 121-130). -/
def getFieldsAndValues (r : GoRecord) (excludeID : Bool) :
    List String × List FieldVal :=
  ((getFieldsAndValuesDeep excludeID r.fields).map Prod.fst,
   (getFieldsAndValuesDeep excludeID r.fields).map Prod.snd)

def placeholders (n : Nat) : List String := List.replicate n "?"

/-- Outcome of the pure part of Create: the error, the (mutated) record,
the encoded column and value lists, and the INSERT statement. -/
structure CreateRes where
  err : Option String
  state : GoRecord
  cols : List String
  vals : List FieldVal
  query : Option String
deriving DecidableEq, Repr

/-- Embedding of Create up to statement construction (model.go lines
133-163): setTimestampsDeep runs FIRST, on the raw value, and only then
is the Modeler interface checked; on success the record is encoded with
excludeID = true and the INSERT statement is built.  The driver
execution, LastInsertId/RETURNING handling and the reload via Find
(lines 156-191) depend only on the driver and do not restore the
mutated fields. -/
def createPrep (now : Nat) (r : GoRecord) : CreateRes :=
  let r1 := { r with fields := setTimestampsFields now r.fields }
  if !r1.isModeler then
    { err := some modelerErr, state := r1, cols := [], vals := [], query := none }
  else
    { err := none, state := r1,
      cols := (getFieldsAndValues r1 true).1,
      vals := (getFieldsAndValues r1 true).2,
      query := some ("INSERT INTO " ++ r1.tableName ++ " (" ++
        String.intercalate ", " (getFieldsAndValues r1 true).1 ++ ") VALUES (" ++
        String.intercalate ", " (placeholders (getFieldsAndValues r1 true).1.length) ++ ")") }

/- Decidable check that every field named CreatedAt or UpdatedAt, at
any embedding depth, holds exactly the time value now. -/
mutual
def allStampsVal (now : Nat) : FieldVal → Bool
  | .vStruct fs => allStampsFields now fs
  | _ => true
def allStampsFields (now : Nat) : Fields → Bool
  | .nil => true
  | .cons (.mk name _ _ v) rest =>
      (if name = "CreatedAt" || name = "UpdatedAt" then v = FieldVal.vTime now
       else allStampsVal now v) && allStampsFields now rest
end

/-- Instance pair for claim C5: identical Go type (a name column and a
created_at time column), the first with the zero time, the second with a
set timestamp. -/
def instZeroStamp : Fields :=
  .cons (.mk "Name" "" false (.vString "Ada"))
    (.cons (.mk "CreatedAt" "created_at" false (.vTime 0)) .nil)

def instSetStamp : Fields :=
  .cons (.mk "Name" "" false (.vString "Ada"))
    (.cons (.mk "CreatedAt" "created_at" false (.vTime 5)) .nil)

/-- Instance pair for the amended claim C5: same type, different field
values, both timestamps non-zero. -/
def instStampFive : Fields :=
  .cons (.mk "Name" "" false (.vString "Ada"))
    (.cons (.mk "CreatedAt" "created_at" false (.vTime 5)) .nil)

def instStampSeven : Fields :=
  .cons (.mk "Name" "" false (.vString "Bob"))
    (.cons (.mk "CreatedAt" "created_at" false (.vTime 7)) .nil)

/-- A record whose CreatedAt was already set before calling Create. -/
def presetStampRec : GoRecord :=
  { isModeler := true, tableName := "users",
    fields := .cons (.mk "CreatedAt" "created_at" false (.vTime 5)) .nil }

/-- A value that does not implement Modeler, with an embedded BaseModel
carrying preset timestamps, handed to Create. -/
def nonModelerRec : GoRecord :=
  { isModeler := false, tableName := "users",
    fields := .cons (.mk "BaseModel" "" true (.vStruct
        (.cons (.mk "CreatedAt" "created_at" false (.vTime 3))
          (.cons (.mk "UpdatedAt" "updated_at" false (.vTime 4)) .nil))))
      (.cons (.mk "Name" "" false (.vString "Ada")) .nil) }

/-! ### Row codec (scanRow, model.go lines 347-413)

scanRow receives the SELECT column list (the names produced by
getFieldsAndValues), locates each named field, scans non-time columns
directly into the fields and time columns into temporary strings, then
parses each temporary string first as RFC3339 and, when that yields the
zero time, with the layout "2006-01-02 15:04:05"; the errors of both
parses are discarded.  The embedding works on the flattened field list
and pairs fields with row columns positionally, which is the order the
generated SELECT lists them in. -/

/-- A serialized time value as it arrives in a database column: rfc is a
string that time.Parse reads as the given time under RFC3339, dt one
that only the layout "2006-01-02 15:04:05" reads, bad one that neither
layout reads, emptyS the empty string. -/
inductive TimeStr where
  | emptyS
  | rfc (t : Nat)
  | dt (t : Nat)
  | bad (s : String)
deriving DecidableEq, Repr

/-- time.Parse(time.RFC3339, s); Go returns the zero time on error. -/
def parseRFC3339 : TimeStr → Nat
  | .rfc t => t
  | _ => 0

/-- time.Parse("2006-01-02 15:04:05", s); zero time on error. -/
def parseDateTime : TimeStr → Nat
  | .dt t => t
  | _ => 0

/-- The per-field time fix-up of scanRow (model.go lines 399-411): skip
when the scanned string is empty, otherwise parse as RFC3339, retry with
the second layout when the result is the zero time, and set the field to
whatever came out. -/
def scanTimeFixup (s : TimeStr) (old : FieldVal) : FieldVal :=
  match s with
  | .emptyS => old
  | _ =>
      FieldVal.vTime (if parseRFC3339 s == 0 then parseDateTime s else parseRFC3339 s)

/-- One column value as delivered by database/sql to Scan. -/
inductive ColVal where
  | cInt (i : Int)
  | cString (s : String)
  | cTime (ts : TimeStr)
  | cNull
deriving DecidableEq, Repr

/-- A field of the flattened record scanRow decodes into. -/
structure FlatField where
  name : String
  dbTag : String
  val : FieldVal
deriving DecidableEq, Repr

/-- Scanning one destination (model.go lines 360-383): a time-typed
field scans its column into a temporary string and is then fixed up by
scanTimeFixup; other fields receive the column value directly; a NULL or
mismatched column makes Scan fail, an error scanRow wraps and returns
(model.go lines 385-396). -/
def scanField (f : FlatField) (c : ColVal) : Except String FlatField :=
  match f.val, c with
  | .vTime _, .cTime ts => .ok { f with val := scanTimeFixup ts f.val }
  | .vTime _, _ => .error "scan error: time column did not scan into a string"
  | .vInt _, .cInt i => .ok { f with val := .vInt i }
  | .vString _, .cString s => .ok { f with val := .vString s }
  | _, _ => .error "scan error: unsupported destination or NULL"

/-- Embedding of scanRow over a flattened record; the first failing
destination aborts the row with its wrapped error. -/
def scanRow : List FlatField → List ColVal → Except String (List FlatField)
  | [], [] => .ok []
  | f :: fs, c :: cs =>
      match scanField f c with
      | .error e => .error e
      | .ok f1 =>
          match scanRow fs cs with
          | .error e => .error e
          | .ok rest => .ok (f1 :: rest)
  | _, _ => .error "scan error: destination count does not match columns"

/-- Embedding of the row loop of FindAll and Where (model.go lines
290-297 and 333-340): each successfully decoded row is appended to the
caller slice in place before the next row is read; a scanRow error
returns immediately, leaving the rows appended so far in the slice. -/
def findAllLoop (proto : List FlatField) :
    List (List ColVal) → List (List FlatField) →
      Option String × List (List FlatField)
  | [], acc => (none, acc)
  | row :: rows, acc =>
      match scanRow proto row with
      | .ok rec1 => findAllLoop proto rows (acc ++ [rec1])
      | .error e => (some e, acc)

/-- Prototype of a record with one time field, for decoding. -/
def stampProto : FlatField := { name := "CreatedAt", dbTag := "created_at", val := .vTime 0 }

/-- Prototype of a record with one int field, for the FindAll loop. -/
def ageProto : List FlatField := [{ name := "Age", dbTag := "age", val := .vInt 0 }]

/-! ### Update and Delete on the users table (model.go lines 215-261)

Update and Delete are generic over the record type; the embedding
instantiates them at the users example record (columns id, name, age,
created_at, updated_at) together with the relational semantics of the
statements they generate:
UPDATE users SET name=?, age=?, [created_at=?,] updated_at=? WHERE id=?
touches exactly the rows whose id equals the bound key and reports how
many it touched; DELETE FROM users WHERE id=? removes them.  Both Go
functions discard the driver result (and hence the affected-row count)
with a blank identifier and return nil unless the driver itself
errors. -/

structure UserRow where
  id : Int
  name : String
  age : Int
  createdAt : Nat
  updatedAt : Nat
deriving DecidableEq, Repr

/-- The SET clause applied to one matched row; created_at is part of the
clause only when the record value is non-zero (getFieldsAndValuesDeep
skips zero timestamps). -/
def applySet (u r : UserRow) : UserRow :=
  { r with name := u.name, age := u.age,
           createdAt := if u.createdAt == 0 then r.createdAt else u.createdAt,
           updatedAt := u.updatedAt }

/-- Executing the generated UPDATE: new table and affected-row count. -/
def execUpdateUsers (tbl : List UserRow) (u : UserRow) : List UserRow × Nat :=
  (tbl.map (fun r => if r.id == u.id then applySet u r else r),
   (tbl.filter (fun r => r.id == u.id)).length)

/-- Executing the generated DELETE: new table and affected-row count. -/
def execDeleteUsers (tbl : List UserRow) (u : UserRow) : List UserRow × Nat :=
  (tbl.filter (fun r => !(r.id == u.id)),
   (tbl.filter (fun r => r.id == u.id)).length)

/-- Embedding of Update (model.go lines 215-244): SetUpdatedAt(now) runs
first, the UPDATE executes, and the result -- in particular the
affected-row count -- is discarded; the returned error is nil whenever
the driver executed the statement. -/
def updateUsers (tbl : List UserRow) (u : UserRow) (now : Nat) :
    Option String × UserRow × List UserRow :=
  (none, { u with updatedAt := now },
   (execUpdateUsers tbl { u with updatedAt := now }).1)

/-- Embedding of Delete (model.go lines 247-261): the DELETE executes
and its result is discarded; nil error whenever the driver executed. -/
def deleteUsers (tbl : List UserRow) (u : UserRow) : Option String × List UserRow :=
  (none, (execDeleteUsers tbl u).1)

/-- A one-row users table and a record whose key matches no row. -/
def oneRowTable : List UserRow :=
  [{ id := 1, name := "Ada", age := 30, createdAt := 3, updatedAt := 3 }]

def missingKeyRec : UserRow :=
  { id := 2, name := "Bob", age := 40, createdAt := 0, updatedAt := 0 }

/-! ### Connection selection of the CRUD entry points (C4) -/

inductive CrudOp where
  | create | find | update | delete | findAll | whereQ
deriving DecidableEq, Repr

/-- The connections visible to a call: the global one returned by
GetConnection (connection.go lines 39-42) and, when a transaction is
open, the connection its sql.Tx holds. -/
structure ConnWorld where
  globalConn : Nat
  txConn : Option Nat
deriving DecidableEq, Repr

/-- Connection on which each CRUD entry point executes its statement:
Create, Find, Update, Delete, FindAll and Where each obtain it by
calling GetConnection() (model.go lines 153, 209, 238, 255, 284, 327);
none of the five signatures has a Transaction parameter, so the choice
never depends on an open transaction. -/
def crudConn (w : ConnWorld) : CrudOp → Nat := fun _ => w.globalConn

/-- Transaction.Exec / Query / QueryRow run on the transaction
connection t.tx (transactions.go lines 246-258); hand-written SQL
through these methods is the only way a statement joins a
transaction. -/
def txStmtConn (txc : Nat) : Nat := txc

/-! ### Theorems about the transaction manager -/

theorem runCallbacks_all_ok :
    ∀ cbs : List Callback, (∀ c ∈ cbs, c.2 = none) →
      runCallbacks cbs = (none, callbackEvents cbs) := by
  intro cbs h
  induction cbs with
  | nil => rfl
  | cons c rest ih =>
      obtain ⟨i, r⟩ := c
      have hc : r = none := h (i, r) (List.mem_cons_self _ _)
      subst hc
      have ih2 := ih (fun x hx => h x (List.mem_cons_of_mem _ hx))
      simp [runCallbacks, callbackEvents, ih2]

theorem runCallbacks_first_error :
    ∀ (pre : List Callback) (i : Nat) (e : String) (post : List Callback),
      (∀ c ∈ pre, c.2 = none) →
      runCallbacks (pre ++ (i, some e) :: post) =
        (some ("commit callback failed: " ++ e),
         callbackEvents pre ++ ["CALLBACK " ++ toString i]) := by
  intro pre i e post h
  induction pre with
  | nil => rfl
  | cons c rest ih =>
      obtain ⟨j, r⟩ := c
      have hc : r = none := h (j, r) (List.mem_cons_self _ _)
      subst hc
      have ih2 := ih (fun x hx => h x (List.mem_cons_of_mem _ hx))
      simp [List.cons_append, runCallbacks, callbackEvents, List.append_eq, ih2]

/-- A successful Commit always leaves the committed flag set. -/
theorem commit_ok_committed (dbE : DbExec) (t u : Transaction) (tr : List String)
    (h : t.commit dbE = (none, u, tr)) : u.committed = true := by
  unfold Transaction.commit at h
  repeat' split at h
  all_goals simp only [Prod.mk.injEq] at h
  all_goals (try simp_all)
  all_goals (obtain ⟨h1, -⟩ := h; subst h1; rfl)

/-- Claim C1, behaviour of the code at the claimed scenario: BeginNested
on a fresh Active parent records the savepoint name sp_1 on the PARENT
savepoint list and creates the child with an empty one; Rollback on that
child therefore issues no SQL statement at all (empty trace) -- in
particular not ROLLBACK TO SAVEPOINT sp_1 -- even though it does mark
the child RolledBack and leaves the parent neither committed nor rolled
back. -/
theorem nested_rollback_issues_no_savepoint_sql :
    (freshTx.beginNested okExec).parent.savepoints = [spName 1] ∧
    (freshTx.beginNested okExec).child = some nestedChild ∧
    nestedChild.rollback okExec =
      (none, { nestedChild with rolledBack := true }, []) ∧
    (freshTx.beginNested okExec).parent.committed = false ∧
    (freshTx.beginNested okExec).parent.rolledBack = false :=
  ⟨rfl, rfl, rfl, rfl, rfl⟩

/-- Claim C2: once a Transaction has been committed successfully, a
second Commit and a Rollback both return an error, issue no statement to
the driver, and leave every state field of the transaction unchanged. -/
theorem commit_then_commit_or_rollback_errors (dbE dbF dbG : DbExec)
    (t u : Transaction) (tr : List String)
    (h : t.commit dbE = (none, u, tr)) :
    u.commit dbF = (some "transaction already committed", u, []) ∧
    u.rollback dbG = (some "cannot rollback committed transaction", u, []) := by
  have hc := commit_ok_committed dbE t u tr h
  constructor
  · unfold Transaction.commit
    simp [hc]
  · unfold Transaction.rollback
    simp [hc]

theorem commit_then_commit_or_rollback_errors_witness :
    ({ freshTx with committed := true } : Transaction).commit okExec =
        (some "transaction already committed", { freshTx with committed := true }, []) ∧
    ({ freshTx with committed := true } : Transaction).rollback okExec =
        (some "cannot rollback committed transaction", { freshTx with committed := true }, []) :=
  commit_then_commit_or_rollback_errors okExec okExec okExec freshTx
    { freshTx with committed := true } ["COMMIT"] rfl

/-- Claim C3: on a top-level Active transaction, Commit runs every
registered callback in registration order and only then executes the
physical COMMIT; if a callback fails, Commit returns the wrapped
callback error, the COMMIT statement is never executed, the state fields
are unchanged (the transaction is not marked Committed), and the caller
can still roll the transaction back. -/
theorem commit_callbacks_order_and_abort (dbE dbF : DbExec) (t : Transaction)
    (htop : t.nested = false) (hc : t.committed = false) (hr : t.rolledBack = false) :
    ((∀ c ∈ t.callbacks, c.2 = none) → dbE "COMMIT" = none →
      t.commit dbE = (none, { t with committed := true },
        callbackEvents t.callbacks ++ ["COMMIT"])) ∧
    (∀ pre i e post, t.callbacks = pre ++ (i, some e) :: post →
      (∀ c ∈ pre, c.2 = none) →
      t.commit dbE = (some ("commit callback failed: " ++ e), t,
        callbackEvents pre ++ ["CALLBACK " ++ toString i])) ∧
    (dbF "ROLLBACK" = none →
      t.rollback dbF = (none, { t with rolledBack := true }, ["ROLLBACK"])) := by
  refine ⟨?_, ?_, ?_⟩
  · intro hcb hdb
    simp [Transaction.commit, hc, hr, htop, runCallbacks_all_ok _ hcb, hdb]
  · intro pre i e post hsplit hpre
    simp [Transaction.commit, hc, hr, htop, hsplit,
      runCallbacks_first_error pre i e post hpre]
  · intro hdb
    simp [Transaction.rollback, hc, hr, htop, hdb]

theorem commit_callbacks_order_and_abort_witness :
    twoCallbackTx.commit okExec =
      (none, { twoCallbackTx with committed := true },
       callbackEvents twoCallbackTx.callbacks ++ ["COMMIT"]) :=
  (commit_callbacks_order_and_abort okExec okExec twoCallbackTx rfl rfl rfl).1
    (by decide) rfl

/-! ### Theorems about the metadata introspector and Create -/

theorem isZStruct_zShape (v : FieldVal) : isZStruct (zShapeVal v) = isStructVal v := by
  cases v <;> rfl

theorem isZTime_zShape (v : FieldVal) : isZTime (zShapeVal v) = isTimeVal v := by
  cases v <;> rfl

theorem zTimeZero_zShape (v : FieldVal) : zTimeZero (zShapeVal v) = timeValIsZero v := by
  cases v <;> rfl

mutual
theorem names_factor_val (ex : Bool) : (v : FieldVal) →
    (spliceEmbedded ex v).map Prod.fst = namesOfZVal ex (zShapeVal v)
  | .vInt _ => rfl
  | .vString _ => rfl
  | .vTime _ => rfl
  | .vStruct fs => names_factor_fields ex fs
theorem names_factor_fields (ex : Bool) : (fs : Fields) →
    (getFieldsAndValuesDeep ex fs).map Prod.fst = namesOfZFields ex (zShapeFields fs)
  | .nil => rfl
  | .cons (.mk name tag anon v) rest => by
      have hv := names_factor_val ex v
      have hr := names_factor_fields ex rest
      simp only [getFieldsAndValuesDeep, zShapeFields, namesOfZFields, List.map_append]
      rw [hr]
      congr 1
      rw [isZStruct_zShape, isZTime_zShape, zTimeZero_zShape]
      split_ifs <;> simp [hv]
end

/-- Claim C5, counterexample: two instances of the same Go type (their
type shapes are equal), one holding the zero time in its created_at
field and the other a set timestamp, yield different column-name lists
from the introspector -- the list is not a pure function of type
identity. -/
theorem fieldNames_not_function_of_type_only :
    typeShapeFields instZeroStamp = typeShapeFields instSetStamp ∧
    (getFieldsAndValuesDeep false instZeroStamp).map Prod.fst ≠
      (getFieldsAndValuesDeep false instSetStamp).map Prod.fst := by
  exact ⟨rfl, by decide⟩

/-- Claim C5 as amended: the computed column-name list is a pure
function of the type identity refined with the zero/non-zero status of
each time-valued field; two instances agreeing on that refinement yield
identical output, whatever their other field values. -/
theorem fieldNames_function_of_type_and_stamp_zeroness (ex : Bool) (fs1 fs2 : Fields)
    (h : zShapeFields fs1 = zShapeFields fs2) :
    (getFieldsAndValuesDeep ex fs1).map Prod.fst =
      (getFieldsAndValuesDeep ex fs2).map Prod.fst := by
  rw [names_factor_fields ex fs1, names_factor_fields ex fs2, h]

theorem fieldNames_function_of_type_and_stamp_zeroness_witness :
    (getFieldsAndValuesDeep false instStampFive).map Prod.fst =
      (getFieldsAndValuesDeep false instStampSeven).map Prod.fst :=
  fieldNames_function_of_type_and_stamp_zeroness false instStampFive instStampSeven
    (by decide)

mutual
theorem allStamps_setVal (now : Nat) : (v : FieldVal) →
    allStampsVal now (setTimestampsVal now v) = true
  | .vInt _ => rfl
  | .vString _ => rfl
  | .vTime _ => rfl
  | .vStruct fs => by
      simp [setTimestampsVal, allStampsVal, allStamps_setFields now fs]
theorem allStamps_setFields (now : Nat) : (fs : Fields) →
    allStampsFields now (setTimestampsFields now fs) = true
  | .nil => rfl
  | .cons (.mk name tag anon v) rest => by
      by_cases h : name = "CreatedAt" || name = "UpdatedAt"
      · simp [setTimestampsFields, allStampsFields, h, allStamps_setFields now rest]
      · simp [setTimestampsFields, allStampsFields, h, allStamps_setVal now v,
          allStamps_setFields now rest]
end

/-- Claim C6, counterexample: a record whose CreatedAt is already set
(to time 5) before the Create call has it overwritten with now (10) by
the timestamp phase of Create, so a pre-set timestamp is NOT left
unchanged. -/
theorem create_overwrites_preset_timestamp :
    (createPrep 10 presetStampRec).state.fields =
      Fields.cons (.mk "CreatedAt" "created_at" false (.vTime 10)) .nil ∧
    presetStampRec.fields =
      Fields.cons (.mk "CreatedAt" "created_at" false (.vTime 5)) .nil ∧
    (createPrep 10 presetStampRec).state.fields ≠ presetStampRec.fields := by
  exact ⟨rfl, rfl, by decide⟩

/-- Claim C6 as amended: Create sets every created-at and updated-at
field (at any embedding depth) to now unconditionally -- there is no
only-if-unset guard in setTimestampsDeep; the zero-value check happens
only later, when the INSERT column list is encoded. -/
theorem create_sets_timestamps_unconditionally (now : Nat) (r : GoRecord) :
    allStampsFields now (createPrep now r).state.fields = true := by
  unfold createPrep
  by_cases h : r.isModeler <;> simp [h, allStamps_setFields]

/-- Claim C10: for a value that does not implement Modeler, Create
returns the type-contract error, yet every CreatedAt and UpdatedAt field
at any embedding depth has already been overwritten with now -- the
call is not state-preserving on this error. -/
theorem create_mutates_before_modeler_check (now : Nat) (r : GoRecord)
    (h : r.isModeler = false) :
    (createPrep now r).err = some modelerErr ∧
    allStampsFields now (createPrep now r).state.fields = true := by
  unfold createPrep
  constructor
  · simp [h]
  · simp [h, allStamps_setFields]

theorem create_mutates_before_modeler_check_witness :
    (createPrep 10 nonModelerRec).err = some modelerErr ∧
    allStampsFields 10 (createPrep 10 nonModelerRec).state.fields = true :=
  create_mutates_before_modeler_check 10 nonModelerRec rfl

/-! ### Theorems about the row codec, the row loop, Update/Delete and
connection selection -/

/-- Claim C7, counterexample: a time column whose value parses in
neither accepted layout decodes WITHOUT error -- scanRow discards both
parse errors and sets the field to the zero time. -/
theorem scanRow_swallows_unparseable_time :
    scanRow [stampProto] [ColVal.cTime (.bad "June 5, 2020")] =
      .ok [{ stampProto with val := .vTime 0 }] := rfl

/-- Claim C7 as amended: a time-valued column is accepted in either of
the two layouts (RFC3339 or "2006-01-02 15:04:05") and an empty string
leaves the field untouched; a value parsing in neither layout yields no
error either -- the field is silently set to the zero time. -/
theorem scanRow_time_two_formats (name tag : String) (t0 : Nat) :
    (∀ t, scanField ⟨name, tag, .vTime t0⟩ (.cTime (.rfc t)) =
        .ok ⟨name, tag, .vTime t⟩) ∧
    (∀ t, scanField ⟨name, tag, .vTime t0⟩ (.cTime (.dt t)) =
        .ok ⟨name, tag, .vTime t⟩) ∧
    (∀ s, scanField ⟨name, tag, .vTime t0⟩ (.cTime (.bad s)) =
        .ok ⟨name, tag, .vTime 0⟩) ∧
    scanField ⟨name, tag, .vTime t0⟩ (.cTime .emptyS) =
        .ok ⟨name, tag, .vTime t0⟩ := by
  refine ⟨?_, ?_, ?_, ?_⟩
  · intro t
    by_cases h : t = 0 <;>
      simp [scanField, scanTimeFixup, parseRFC3339, parseDateTime, h]
  · intro t
    simp [scanField, scanTimeFixup, parseRFC3339, parseDateTime]
  · intro s
    simp [scanField, scanTimeFixup, parseRFC3339, parseDateTime]
  · simp [scanField, scanTimeFixup]

/-- Claim C8, counterexample: with one decodable row followed by one
undecodable row, FindAll returns an error AND the caller slice retains
the record decoded before the failure. -/
theorem findAll_partial_rows_remain_in_slice :
    findAllLoop ageProto [[ColVal.cInt 1], [ColVal.cNull]] [] =
      (some "scan error: unsupported destination or NULL",
       [[{ name := "Age", dbTag := "age", val := FieldVal.vInt 1 }]]) := rfl

/-- Claim C8 as amended: when a row fails to decode partway through the
loop of FindAll or Where, the whole call returns that error, but the
caller slice is left holding exactly the records decoded before the
failing row (they were appended in place during iteration). -/
theorem findAll_error_returns_with_decoded_rows (proto : List FlatField)
    (goods : List (List ColVal)) (badRow : List ColVal) (rest : List (List ColVal))
    (acc recs : List (List FlatField)) (e : String)
    (hg : goods.mapM (scanRow proto) = Except.ok recs)
    (hb : scanRow proto badRow = .error e) :
    findAllLoop proto (goods ++ badRow :: rest) acc = (some e, acc ++ recs) := by
  induction goods generalizing acc recs with
  | nil =>
      simp only [List.mapM_nil, pure, Except.pure, Except.ok.injEq] at hg
      subst hg
      simp [findAllLoop, hb]
  | cons g gs ih =>
      rw [List.mapM_cons] at hg
      cases hsg : scanRow proto g with
      | error e2 => rw [hsg] at hg; simp [Bind.bind, Except.bind] at hg
      | ok r1 =>
          rw [hsg] at hg
          cases hgs : gs.mapM (scanRow proto) with
          | error e2 => rw [hgs] at hg; simp [Bind.bind, Except.bind] at hg
          | ok rs =>
              rw [hgs] at hg
              simp only [Bind.bind, Except.bind, pure, Except.pure, Except.ok.injEq] at hg
              subst hg
              simp only [List.cons_append, findAllLoop, hsg, List.append_eq]
              rw [ih (acc ++ [r1]) rs hgs]
              simp

theorem findAll_error_returns_with_decoded_rows_witness :
    findAllLoop ageProto ([[ColVal.cInt 2]] ++ [ColVal.cNull] :: [[ColVal.cInt 3]]) [] =
      (some "scan error: unsupported destination or NULL",
       [] ++ [[{ name := "Age", dbTag := "age", val := FieldVal.vInt 2 }]]) :=
  findAll_error_returns_with_decoded_rows ageProto [[ColVal.cInt 2]] [ColVal.cNull]
    [[ColVal.cInt 3]] [] [[{ name := "Age", dbTag := "age", val := FieldVal.vInt 2 }]]
    "scan error: unsupported destination or NULL" rfl rfl

theorem execUpdateUsers_no_match (tbl : List UserRow) (u : UserRow)
    (h : ∀ r ∈ tbl, r.id ≠ u.id) : (execUpdateUsers tbl u).1 = tbl := by
  simp only [execUpdateUsers]
  induction tbl with
  | nil => rfl
  | cons r rest ih =>
      have h1 : r.id ≠ u.id := h r (List.mem_cons_self _ _)
      have ih2 := ih (fun x hx => h x (List.mem_cons_of_mem _ hx))
      simp [h1] at ih2 ⊢
      exact ih2

theorem execDeleteUsers_no_match (tbl : List UserRow) (u : UserRow)
    (h : ∀ r ∈ tbl, r.id ≠ u.id) : (execDeleteUsers tbl u).1 = tbl := by
  simp only [execDeleteUsers]
  induction tbl with
  | nil => rfl
  | cons r rest ih =>
      have h1 : r.id ≠ u.id := h r (List.mem_cons_self _ _)
      have ih2 := ih (fun x hx => h x (List.mem_cons_of_mem _ hx))
      simp [h1] at ih2 ⊢
      exact ih2

/-- Claim C9: Update and Delete on a record whose primary key matches no
row of the table return no error (and leave the table unchanged) --
zero rows affected is not an error for either operation, since both
discard the driver result with a blank identifier. -/
theorem update_delete_missing_row_no_error (tbl : List UserRow) (u : UserRow) (now : Nat)
    (h : ∀ r ∈ tbl, r.id ≠ u.id) :
    updateUsers tbl u now = (none, { u with updatedAt := now }, tbl) ∧
    deleteUsers tbl u = (none, tbl) := by
  constructor
  · have h2 : ∀ r ∈ tbl, r.id ≠ ({ u with updatedAt := now } : UserRow).id := by
      intro r hr
      simpa using h r hr
    simp [updateUsers, execUpdateUsers_no_match tbl _ h2]
  · simp [deleteUsers, execDeleteUsers_no_match tbl u h]

theorem update_delete_missing_row_no_error_witness :
    updateUsers oneRowTable missingKeyRec 9 =
      (none, { missingKeyRec with updatedAt := 9 }, oneRowTable) ∧
    deleteUsers oneRowTable missingKeyRec = (none, oneRowTable) :=
  update_delete_missing_row_no_error oneRowTable missingKeyRec 9 (by decide)

/-- Claim C4, counterexample: with the global connection 7 and an open
transaction whose sql.Tx holds connection 8, each of the five CRUD
operations executes its statement on connection 7 -- the global one --
and not on the transaction connection 8; no CRUD signature accepts a
Transaction, only Transaction.Exec-style calls reach connection 8. -/
theorem crud_runs_on_global_connection_not_transaction :
    crudConn ⟨7, some 8⟩ .create = 7 ∧ crudConn ⟨7, some 8⟩ .find = 7 ∧
    crudConn ⟨7, some 8⟩ .update = 7 ∧ crudConn ⟨7, some 8⟩ .delete = 7 ∧
    crudConn ⟨7, some 8⟩ .findAll = 7 ∧ crudConn ⟨7, some 8⟩ .whereQ = 7 ∧
    (⟨7, some 8⟩ : ConnWorld).txConn = some 8 ∧ txStmtConn 8 = 8 ∧ (7 : Nat) ≠ 8 := by
  refine ⟨rfl, rfl, rfl, rfl, rfl, rfl, rfl, rfl, by decide⟩

/-- Claim C4 as amended: the generated statement of every CRUD entry
point always executes on the global connection from GetConnection,
whatever transactions are open; a statement participates in a
transaction only when issued through the transaction object itself. -/
theorem crud_always_uses_global_connection (w : ConnWorld) (op : CrudOp) (c : Nat) :
    crudConn w op = w.globalConn ∧ txStmtConn c = c :=
  ⟨rfl, rfl⟩
